import Mathlib

/-!
Shallow embedding of `src/bongocat-platform-linux/native/wayland-protocols-jni.c`.

The C file exports seven symbols:
four descriptor accessors that return the addresses of `extern const struct
wl_interface` objects, and three fixed-arity wrappers whose bodies are a single
`return` of one libwayland-client call.

Modelling choices, all derived from the source:
- Pointers are addresses (`Nat`); the null pointer is address `0`.
- The external library is an oracle: a structure `Env` holding the addresses of
  the four `extern` descriptor objects and the three external functions, taken
  as pure functions (the claims are stated "under the same behavior of the
  external calls").
- Each exported function is threaded through an explicit component store
  (the component's own mutable globals) and returns, besides its value, the
  resulting store and the trace of primitive actions its body performed
  (external calls, file-descriptor close/dup, pointer dereference).  The C
  bodies each perform exactly one external call and touch nothing else, so the
  embedding of each body emits exactly that one call action and leaves the
  store untouched.
- The value channel is `Except WrapperError Ptr` so that "the wrapper raises no
  wrapper-level error" is statable; the C code has no failure path, so the
  embedding never produces the error alternative.
-/

namespace WaylandProtocolsJni

/-- A machine pointer, modelled as an address; the null pointer is `0`. -/
abbrev Ptr := Nat

/-- The value range of a C `int` / `int32_t`. -/
def int32Range (v : Int) : Prop := -(2 ^ 31) ≤ v ∧ v < 2 ^ 31

/-- The value range of a C `uint32_t`. -/
def uint32Range (v : Nat) : Prop := v < 2 ^ 32

/-- Primitive actions a wrapper body could perform, recorded in a trace:
the three external library calls appearing in the source, plus the
file-descriptor and pointer operations whose absence the claims assert. -/
inductive Action where
  | callGetLayerSurface (layer_shell surface output : Ptr) (layer : Nat) (ns : Ptr)
  | callShmCreatePool (shm : Ptr) (fd : Int) (size : Int)
  | callShmPoolCreateBuffer (pool : Ptr) (offset width height stride : Int) (format : Nat)
  | derefPtr (addr : Ptr)
  | closeFd (fd : Int)
  | dupFd (fd : Int)

/-- `true` exactly on the actions that close or duplicate a file descriptor. -/
def touchesFd : Action → Bool
  | .closeFd _ => true
  | .dupFd _ => true
  | _ => false

/-- `true` exactly on the action that dereferences a pointer. -/
def isDeref : Action → Bool
  | .derefPtr _ => true
  | _ => false

/-- The external world as seen by the C file: the addresses of the four
`extern const struct wl_interface` objects it takes the address of, and the
three libwayland-client functions it calls, as pure functions. -/
structure Env where
  zwlr_layer_shell_v1_interface : Ptr
  zwlr_layer_surface_v1_interface : Ptr
  zxdg_output_manager_v1_interface : Ptr
  zxdg_output_v1_interface : Ptr
  zwlr_layer_shell_v1_get_layer_surface : Ptr → Ptr → Ptr → Nat → Ptr → Ptr
  wl_shm_create_pool : Ptr → Int → Int → Ptr
  wl_shm_pool_create_buffer : Ptr → Int → Int → Int → Int → Nat → Ptr

/-- C guarantees for the four `extern const struct wl_interface` objects of the
source: the address of a statically allocated object is non-null, and distinct
objects have distinct addresses. -/
def staticInterfacesValid (env : Env) : Prop :=
  env.zwlr_layer_shell_v1_interface ≠ 0 ∧
  env.zwlr_layer_surface_v1_interface ≠ 0 ∧
  env.zxdg_output_manager_v1_interface ≠ 0 ∧
  env.zxdg_output_v1_interface ≠ 0 ∧
  env.zwlr_layer_shell_v1_interface ≠ env.zwlr_layer_surface_v1_interface ∧
  env.zwlr_layer_shell_v1_interface ≠ env.zxdg_output_manager_v1_interface ∧
  env.zwlr_layer_shell_v1_interface ≠ env.zxdg_output_v1_interface ∧
  env.zwlr_layer_surface_v1_interface ≠ env.zxdg_output_manager_v1_interface ∧
  env.zwlr_layer_surface_v1_interface ≠ env.zxdg_output_v1_interface ∧
  env.zxdg_output_manager_v1_interface ≠ env.zxdg_output_v1_interface

instance staticInterfacesValid.decidable (env : Env) :
    Decidable (staticInterfacesValid env) := by
  unfold staticInterfacesValid
  infer_instance

/-- The component's own mutable store.  The C file declares no mutable global;
the store is threaded through every exported function so that frame and
statelessness properties can be stated over an arbitrary ambient store. -/
abbrev Store := Nat → Int

/-- A wrapper-level failure.  The C code has no failure path, so no value of
this type is ever produced; the type exists so that "raises no wrapper-level
error" is a statable property of the result. -/
structure WrapperError where
  message : String

/-- The observable outcome of invoking one exported function: its return
value (or a wrapper-level error), the component store afterwards, and the
trace of primitive actions the body performed. -/
structure RunResult (α : Type) where
  ret : Except WrapperError α
  store : Store
  trace : List Action

/-- Embedding of `get_zwlr_layer_shell_v1_interface`:
`return &zwlr_layer_shell_v1_interface;`. -/
def get_zwlr_layer_shell_v1_interface (env : Env) (σ : Store) : RunResult Ptr :=
  { ret := .ok env.zwlr_layer_shell_v1_interface, store := σ, trace := [] }

/-- Embedding of `get_zwlr_layer_surface_v1_interface`:
`return &zwlr_layer_surface_v1_interface;`. -/
def get_zwlr_layer_surface_v1_interface (env : Env) (σ : Store) : RunResult Ptr :=
  { ret := .ok env.zwlr_layer_surface_v1_interface, store := σ, trace := [] }

/-- Embedding of `get_zxdg_output_manager_v1_interface`:
`return &zxdg_output_manager_v1_interface;`. -/
def get_zxdg_output_manager_v1_interface (env : Env) (σ : Store) : RunResult Ptr :=
  { ret := .ok env.zxdg_output_manager_v1_interface, store := σ, trace := [] }

/-- Embedding of `get_zxdg_output_v1_interface`:
`return &zxdg_output_v1_interface;`. -/
def get_zxdg_output_v1_interface (env : Env) (σ : Store) : RunResult Ptr :=
  { ret := .ok env.zxdg_output_v1_interface, store := σ, trace := [] }

/-- Embedding of `create_layer_surface`: its body is the single statement
`return zwlr_layer_shell_v1_get_layer_surface(layer_shell, surface, output,
layer, namespace);`.  The `const char *namespace` argument is the pointer `ns`. -/
def create_layer_surface (env : Env) (σ : Store)
    (layer_shell surface output : Ptr) (layer : Nat) (ns : Ptr) : RunResult Ptr :=
  { ret := .ok (env.zwlr_layer_shell_v1_get_layer_surface layer_shell surface output layer ns),
    store := σ,
    trace := [.callGetLayerSurface layer_shell surface output layer ns] }

/-- Embedding of `create_shm_pool`: its body is the single statement
`return wl_shm_create_pool(shm, fd, size);`. -/
def create_shm_pool (env : Env) (σ : Store) (shm : Ptr) (fd : Int) (size : Int) :
    RunResult Ptr :=
  { ret := .ok (env.wl_shm_create_pool shm fd size),
    store := σ,
    trace := [.callShmCreatePool shm fd size] }

/-- Embedding of `create_buffer_from_pool`: its body is the single statement
`return wl_shm_pool_create_buffer(pool, offset, width, height, stride, format);`. -/
def create_buffer_from_pool (env : Env) (σ : Store)
    (pool : Ptr) (offset width height stride : Int) (format : Nat) : RunResult Ptr :=
  { ret := .ok (env.wl_shm_pool_create_buffer pool offset width height stride format),
    store := σ,
    trace := [.callShmPoolCreateBuffer pool offset width height stride format] }

/-- A concrete external world used to evaluate the embedding on closed inputs:
the four descriptor objects sit at addresses 1 to 4 and the three external
constructors return fixed handles. -/
def testEnv : Env where
  zwlr_layer_shell_v1_interface := 1
  zwlr_layer_surface_v1_interface := 2
  zxdg_output_manager_v1_interface := 3
  zxdg_output_v1_interface := 4
  zwlr_layer_shell_v1_get_layer_surface := fun _ _ _ _ _ => 101
  wl_shm_create_pool := fun _ _ _ => 102
  wl_shm_pool_create_buffer := fun _ _ _ _ _ _ => 103

/-- A concrete component store for closed evaluations. -/
def store0 : Store := fun _ => 0

/-- C1: for every layer-shell handle, surface handle, output handle, layer
value and namespace pointer, `create_layer_surface` returns exactly the value
of the external call `zwlr_layer_shell_v1_get_layer_surface` on those same
five arguments in the same order, leaves the component store unchanged, and
its trace is exactly that one external call — no other effect of its own. -/
theorem create_layer_surface_pass_through (env : Env) (σ : Store)
    (layer_shell surface output : Ptr) (layer : Nat) (ns : Ptr) :
    (create_layer_surface env σ layer_shell surface output layer ns).ret
      = .ok (env.zwlr_layer_shell_v1_get_layer_surface layer_shell surface output layer ns)
    ∧ (create_layer_surface env σ layer_shell surface output layer ns).store = σ
    ∧ (create_layer_surface env σ layer_shell surface output layer ns).trace
      = [.callGetLayerSurface layer_shell surface output layer ns] :=
  ⟨rfl, rfl, rfl⟩

/-- C2: for every shm handle, file descriptor and size, `create_shm_pool`
returns exactly the value of `wl_shm_create_pool` on those same three
arguments, leaves the component store unchanged, its trace is exactly that one
external call, and that trace contains no close or dup of any file
descriptor. -/
theorem create_shm_pool_pass_through (env : Env) (σ : Store)
    (shm : Ptr) (fd : Int) (size : Int) :
    (create_shm_pool env σ shm fd size).ret = .ok (env.wl_shm_create_pool shm fd size)
    ∧ (create_shm_pool env σ shm fd size).store = σ
    ∧ (create_shm_pool env σ shm fd size).trace = [.callShmCreatePool shm fd size]
    ∧ (create_shm_pool env σ shm fd size).trace.any touchesFd = false :=
  ⟨rfl, rfl, rfl, rfl⟩

/-- C3: `create_buffer_from_pool` performs no bounds check: for every declared
pool-size assignment and every combination of arguments with
`offset + height * stride` exceeding the pool's declared size, it still
returns `.ok` of `wl_shm_pool_create_buffer` on the six arguments forwarded
unchanged, raising no wrapper-level error and doing nothing else. -/
theorem create_buffer_from_pool_no_bounds_check (env : Env) (σ : Store)
    (poolSize : Ptr → Int) (pool : Ptr) (offset width height stride : Int) (format : Nat)
    (h : poolSize pool < offset + height * stride) :
    (create_buffer_from_pool env σ pool offset width height stride format).ret
      = .ok (env.wl_shm_pool_create_buffer pool offset width height stride format)
    ∧ (create_buffer_from_pool env σ pool offset width height stride format).store = σ
    ∧ (create_buffer_from_pool env σ pool offset width height stride format).trace
      = [.callShmPoolCreateBuffer pool offset width height stride format] :=
  ⟨rfl, rfl, rfl⟩

/-- Witness for C3: a concrete out-of-bounds geometry (declared pool size 0,
`offset + height * stride = 0 + 1 * 1 = 1 > 0`) on the concrete environment. -/
theorem create_buffer_from_pool_no_bounds_check_witness :
    ((fun _ : Ptr => (0 : Int)) 5 < 0 + 1 * 1)
    ∧ ((create_buffer_from_pool testEnv store0 5 0 1 1 1 0).ret
        = .ok (testEnv.wl_shm_pool_create_buffer 5 0 1 1 1 0)
      ∧ (create_buffer_from_pool testEnv store0 5 0 1 1 1 0).store = store0
      ∧ (create_buffer_from_pool testEnv store0 5 0 1 1 1 0).trace
        = [.callShmPoolCreateBuffer 5 0 1 1 1 0]) :=
  ⟨by norm_num,
   create_buffer_from_pool_no_bounds_check testEnv store0 (fun _ => 0) 5 0 1 1 1 0
     (by norm_num)⟩

/-- C4: each of the four descriptor accessors returns, on every invocation
(i.e. regardless of the component store in which it is invoked), the same
non-null address of its statically allocated interface descriptor. -/
theorem descriptor_accessors_stable_nonnull (env : Env)
    (h : staticInterfacesValid env) (σ σ' : Store) :
    ((get_zwlr_layer_shell_v1_interface env σ).ret = .ok env.zwlr_layer_shell_v1_interface
      ∧ (get_zwlr_layer_shell_v1_interface env σ).ret
        = (get_zwlr_layer_shell_v1_interface env σ').ret
      ∧ env.zwlr_layer_shell_v1_interface ≠ 0)
    ∧ ((get_zwlr_layer_surface_v1_interface env σ).ret = .ok env.zwlr_layer_surface_v1_interface
      ∧ (get_zwlr_layer_surface_v1_interface env σ).ret
        = (get_zwlr_layer_surface_v1_interface env σ').ret
      ∧ env.zwlr_layer_surface_v1_interface ≠ 0)
    ∧ ((get_zxdg_output_manager_v1_interface env σ).ret = .ok env.zxdg_output_manager_v1_interface
      ∧ (get_zxdg_output_manager_v1_interface env σ).ret
        = (get_zxdg_output_manager_v1_interface env σ').ret
      ∧ env.zxdg_output_manager_v1_interface ≠ 0)
    ∧ ((get_zxdg_output_v1_interface env σ).ret = .ok env.zxdg_output_v1_interface
      ∧ (get_zxdg_output_v1_interface env σ).ret
        = (get_zxdg_output_v1_interface env σ').ret
      ∧ env.zxdg_output_v1_interface ≠ 0) :=
  ⟨⟨rfl, rfl, h.1⟩, ⟨rfl, rfl, h.2.1⟩, ⟨rfl, rfl, h.2.2.1⟩, ⟨rfl, rfl, h.2.2.2.1⟩⟩

/-- Witness for C4: the concrete environment satisfies the C static-object
guarantees, and the four accessors are stable and non-null on it. -/
theorem descriptor_accessors_stable_nonnull_witness :
    staticInterfacesValid testEnv
    ∧ ((get_zwlr_layer_shell_v1_interface testEnv store0).ret
        = .ok testEnv.zwlr_layer_shell_v1_interface
      ∧ (get_zwlr_layer_shell_v1_interface testEnv store0).ret
        = (get_zwlr_layer_shell_v1_interface testEnv (fun _ => 1)).ret
      ∧ testEnv.zwlr_layer_shell_v1_interface ≠ 0)
    ∧ ((get_zwlr_layer_surface_v1_interface testEnv store0).ret
        = .ok testEnv.zwlr_layer_surface_v1_interface
      ∧ (get_zwlr_layer_surface_v1_interface testEnv store0).ret
        = (get_zwlr_layer_surface_v1_interface testEnv (fun _ => 1)).ret
      ∧ testEnv.zwlr_layer_surface_v1_interface ≠ 0)
    ∧ ((get_zxdg_output_manager_v1_interface testEnv store0).ret
        = .ok testEnv.zxdg_output_manager_v1_interface
      ∧ (get_zxdg_output_manager_v1_interface testEnv store0).ret
        = (get_zxdg_output_manager_v1_interface testEnv (fun _ => 1)).ret
      ∧ testEnv.zxdg_output_manager_v1_interface ≠ 0)
    ∧ ((get_zxdg_output_v1_interface testEnv store0).ret
        = .ok testEnv.zxdg_output_v1_interface
      ∧ (get_zxdg_output_v1_interface testEnv store0).ret
        = (get_zxdg_output_v1_interface testEnv (fun _ => 1)).ret
      ∧ testEnv.zxdg_output_v1_interface ≠ 0) :=
  ⟨by decide,
   (descriptor_accessors_stable_nonnull testEnv (by decide) store0 (fun _ => 1)).1,
   (descriptor_accessors_stable_nonnull testEnv (by decide) store0 (fun _ => 1)).2.1,
   (descriptor_accessors_stable_nonnull testEnv (by decide) store0 (fun _ => 1)).2.2.1,
   (descriptor_accessors_stable_nonnull testEnv (by decide) store0 (fun _ => 1)).2.2.2⟩

/-- C5: the four descriptor accessors cannot fail and have no side effects:
in every environment and store, each unconditionally returns `.ok` of a
pointer, leaves the component store unchanged, and performs no action at
all. -/
theorem descriptor_accessors_total_pure (env : Env) (σ : Store) :
    ((get_zwlr_layer_shell_v1_interface env σ).ret = .ok env.zwlr_layer_shell_v1_interface
      ∧ (get_zwlr_layer_shell_v1_interface env σ).store = σ
      ∧ (get_zwlr_layer_shell_v1_interface env σ).trace = [])
    ∧ ((get_zwlr_layer_surface_v1_interface env σ).ret = .ok env.zwlr_layer_surface_v1_interface
      ∧ (get_zwlr_layer_surface_v1_interface env σ).store = σ
      ∧ (get_zwlr_layer_surface_v1_interface env σ).trace = [])
    ∧ ((get_zxdg_output_manager_v1_interface env σ).ret = .ok env.zxdg_output_manager_v1_interface
      ∧ (get_zxdg_output_manager_v1_interface env σ).store = σ
      ∧ (get_zxdg_output_manager_v1_interface env σ).trace = [])
    ∧ ((get_zxdg_output_v1_interface env σ).ret = .ok env.zxdg_output_v1_interface
      ∧ (get_zxdg_output_v1_interface env σ).store = σ
      ∧ (get_zxdg_output_v1_interface env σ).trace = []) :=
  ⟨⟨rfl, rfl, rfl⟩, ⟨rfl, rfl, rfl⟩, ⟨rfl, rfl, rfl⟩, ⟨rfl, rfl, rfl⟩⟩

/-- C6: no exported operation validates or raises a component-local failure:
for every input, each of the seven exported functions returns `.ok` of either
a static descriptor address or of exactly the external library's result, so
any failure signal the external library encodes in its return value (such as
a null handle) reaches the caller exactly as produced. -/
theorem no_validation_pass_through (env : Env) (σ : Store)
    (layer_shell surface output : Ptr) (layer : Nat) (ns : Ptr)
    (shm : Ptr) (fd : Int) (size : Int)
    (pool : Ptr) (offset width height stride : Int) (format : Nat) :
    (get_zwlr_layer_shell_v1_interface env σ).ret = .ok env.zwlr_layer_shell_v1_interface
    ∧ (get_zwlr_layer_surface_v1_interface env σ).ret = .ok env.zwlr_layer_surface_v1_interface
    ∧ (get_zxdg_output_manager_v1_interface env σ).ret = .ok env.zxdg_output_manager_v1_interface
    ∧ (get_zxdg_output_v1_interface env σ).ret = .ok env.zxdg_output_v1_interface
    ∧ (create_layer_surface env σ layer_shell surface output layer ns).ret
      = .ok (env.zwlr_layer_shell_v1_get_layer_surface layer_shell surface output layer ns)
    ∧ (create_shm_pool env σ shm fd size).ret = .ok (env.wl_shm_create_pool shm fd size)
    ∧ (create_buffer_from_pool env σ pool offset width height stride format).ret
      = .ok (env.wl_shm_pool_create_buffer pool offset width height stride format) :=
  ⟨rfl, rfl, rfl, rfl, rfl, rfl, rfl⟩

/-- C7: the component holds no internal mutable state: every one of the seven
exported functions returns the same value in any two component stores, and
every invocation leaves the component store exactly as it found it. -/
theorem component_stateless (env : Env) (σ₁ σ₂ : Store)
    (layer_shell surface output : Ptr) (layer : Nat) (ns : Ptr)
    (shm : Ptr) (fd : Int) (size : Int)
    (pool : Ptr) (offset width height stride : Int) (format : Nat) :
    ((get_zwlr_layer_shell_v1_interface env σ₁).ret
        = (get_zwlr_layer_shell_v1_interface env σ₂).ret
      ∧ (get_zwlr_layer_shell_v1_interface env σ₁).store = σ₁)
    ∧ ((get_zwlr_layer_surface_v1_interface env σ₁).ret
        = (get_zwlr_layer_surface_v1_interface env σ₂).ret
      ∧ (get_zwlr_layer_surface_v1_interface env σ₁).store = σ₁)
    ∧ ((get_zxdg_output_manager_v1_interface env σ₁).ret
        = (get_zxdg_output_manager_v1_interface env σ₂).ret
      ∧ (get_zxdg_output_manager_v1_interface env σ₁).store = σ₁)
    ∧ ((get_zxdg_output_v1_interface env σ₁).ret
        = (get_zxdg_output_v1_interface env σ₂).ret
      ∧ (get_zxdg_output_v1_interface env σ₁).store = σ₁)
    ∧ ((create_layer_surface env σ₁ layer_shell surface output layer ns).ret
        = (create_layer_surface env σ₂ layer_shell surface output layer ns).ret
      ∧ (create_layer_surface env σ₁ layer_shell surface output layer ns).store = σ₁)
    ∧ ((create_shm_pool env σ₁ shm fd size).ret = (create_shm_pool env σ₂ shm fd size).ret
      ∧ (create_shm_pool env σ₁ shm fd size).store = σ₁)
    ∧ ((create_buffer_from_pool env σ₁ pool offset width height stride format).ret
        = (create_buffer_from_pool env σ₂ pool offset width height stride format).ret
      ∧ (create_buffer_from_pool env σ₁ pool offset width height stride format).store = σ₁) :=
  ⟨⟨rfl, rfl⟩, ⟨rfl, rfl⟩, ⟨rfl, rfl⟩, ⟨rfl, rfl⟩, ⟨rfl, rfl⟩, ⟨rfl, rfl⟩, ⟨rfl, rfl⟩⟩

/-- C8: the four descriptor accessors return pairwise-distinct addresses: no
two of them ever return the same pointer, each being the address of its own
distinct `extern` descriptor object. -/
theorem descriptor_accessors_pairwise_distinct (env : Env)
    (h : staticInterfacesValid env) (σ : Store) :
    (get_zwlr_layer_shell_v1_interface env σ).ret
      ≠ (get_zwlr_layer_surface_v1_interface env σ).ret
    ∧ (get_zwlr_layer_shell_v1_interface env σ).ret
      ≠ (get_zxdg_output_manager_v1_interface env σ).ret
    ∧ (get_zwlr_layer_shell_v1_interface env σ).ret
      ≠ (get_zxdg_output_v1_interface env σ).ret
    ∧ (get_zwlr_layer_surface_v1_interface env σ).ret
      ≠ (get_zxdg_output_manager_v1_interface env σ).ret
    ∧ (get_zwlr_layer_surface_v1_interface env σ).ret
      ≠ (get_zxdg_output_v1_interface env σ).ret
    ∧ (get_zxdg_output_manager_v1_interface env σ).ret
      ≠ (get_zxdg_output_v1_interface env σ).ret := by
  obtain ⟨-, -, -, -, h12, h13, h14, h23, h24, h34⟩ := h
  refine ⟨?_, ?_, ?_, ?_, ?_, ?_⟩ <;>
    simp [get_zwlr_layer_shell_v1_interface, get_zwlr_layer_surface_v1_interface,
      get_zxdg_output_manager_v1_interface, get_zxdg_output_v1_interface] <;>
    assumption

/-- Witness for C8: on the concrete environment the four accessors return
pairwise-distinct values. -/
theorem descriptor_accessors_pairwise_distinct_witness :
    staticInterfacesValid testEnv
    ∧ ((get_zwlr_layer_shell_v1_interface testEnv store0).ret
        ≠ (get_zwlr_layer_surface_v1_interface testEnv store0).ret
      ∧ (get_zwlr_layer_shell_v1_interface testEnv store0).ret
        ≠ (get_zxdg_output_manager_v1_interface testEnv store0).ret
      ∧ (get_zwlr_layer_shell_v1_interface testEnv store0).ret
        ≠ (get_zxdg_output_v1_interface testEnv store0).ret
      ∧ (get_zwlr_layer_surface_v1_interface testEnv store0).ret
        ≠ (get_zxdg_output_manager_v1_interface testEnv store0).ret
      ∧ (get_zwlr_layer_surface_v1_interface testEnv store0).ret
        ≠ (get_zxdg_output_v1_interface testEnv store0).ret
      ∧ (get_zxdg_output_manager_v1_interface testEnv store0).ret
        ≠ (get_zxdg_output_v1_interface testEnv store0).ret) :=
  ⟨by decide, descriptor_accessors_pairwise_distinct testEnv (by decide) store0⟩

/-- C9: every pointer argument of the three constructor wrappers may be null:
with all pointer arguments equal to the null address 0 (shell, surface,
output, namespace, shm, pool alike) each wrapper still returns `.ok` of the
external call with the nulls forwarded unchanged, and no wrapper's trace, for
any arguments whatever, contains a pointer dereference. -/
theorem null_pointers_accepted (env : Env) (σ : Store)
    (layer_shell surface output : Ptr) (layer : Nat) (ns : Ptr)
    (shm : Ptr) (fd : Int) (size : Int)
    (pool : Ptr) (offset width height stride : Int) (format : Nat) :
    (create_layer_surface env σ 0 0 0 layer 0).ret
      = .ok (env.zwlr_layer_shell_v1_get_layer_surface 0 0 0 layer 0)
    ∧ (create_shm_pool env σ 0 fd size).ret = .ok (env.wl_shm_create_pool 0 fd size)
    ∧ (create_buffer_from_pool env σ 0 offset width height stride format).ret
      = .ok (env.wl_shm_pool_create_buffer 0 offset width height stride format)
    ∧ (create_layer_surface env σ layer_shell surface output layer ns).trace.any isDeref
      = false
    ∧ (create_shm_pool env σ shm fd size).trace.any isDeref = false
    ∧ (create_buffer_from_pool env σ pool offset width height stride format).trace.any isDeref
      = false :=
  ⟨rfl, rfl, rfl, rfl, rfl, rfl⟩

/-- C10: the numeric parameters `size` of `create_shm_pool` and `offset`,
`width`, `height`, `stride` of `create_buffer_from_pool` are signed 32-bit
values: strictly negative in-range values are accepted and forwarded to the
external library unchanged, with no sign or range check by the wrapper. -/
theorem int32_params_signed_forwarded (env : Env) (σ : Store)
    (shm pool : Ptr) (fd : Int) (size offset width height stride : Int) (format : Nat)
    (hsize : int32Range size) (hoff : int32Range offset) (hw : int32Range width)
    (hh : int32Range height) (hs : int32Range stride)
    (hneg : size < 0 ∧ offset < 0 ∧ width < 0 ∧ height < 0 ∧ stride < 0) :
    (create_shm_pool env σ shm fd size).ret = .ok (env.wl_shm_create_pool shm fd size)
    ∧ (create_buffer_from_pool env σ pool offset width height stride format).ret
      = .ok (env.wl_shm_pool_create_buffer pool offset width height stride format) :=
  ⟨rfl, rfl⟩

/-- Witness for C10: the in-range negative value `-1` for all five signed
parameters is accepted and forwarded on the concrete environment. -/
theorem int32_params_signed_forwarded_witness :
    int32Range (-1) ∧ ((-1 : Int) < 0)
    ∧ ((create_shm_pool testEnv store0 6 3 (-1)).ret
        = .ok (testEnv.wl_shm_create_pool 6 3 (-1))
      ∧ (create_buffer_from_pool testEnv store0 7 (-1) (-1) (-1) (-1) 0).ret
        = .ok (testEnv.wl_shm_pool_create_buffer 7 (-1) (-1) (-1) (-1) 0)) :=
  ⟨by constructor <;> norm_num, by norm_num,
   int32_params_signed_forwarded testEnv store0 6 7 3 (-1) (-1) (-1) (-1) (-1) 0
     (by constructor <;> norm_num) (by constructor <;> norm_num)
     (by constructor <;> norm_num) (by constructor <;> norm_num)
     (by constructor <;> norm_num)
     ⟨by norm_num, by norm_num, by norm_num, by norm_num, by norm_num⟩⟩

end WaylandProtocolsJni
